import Mathlib

/-!
Shallow embedding of `src/employee.py` (the Employee model of the hr-system
repository) and proofs about the claims of its specification.

Modelling conventions:
* Python runtime values that can reach the setters are modelled by `PyVal`:
  ints, floats, strings, `Role` members and `Department` members.  Python
  floats are modelled as exact rationals; every numeric literal appearing in
  the source (`50000`, `15`, `99.99`, `52.0`, `40`) and in the claims
  (`49999.99`, `104000.0`, `100.00`, `20`) is exactly representable, and on
  those values the IEEE-754 comparisons performed by the code agree with the
  rational comparisons, so the model is faithful on everything the claims
  touch.
* A Python exception is modelled by `PyErr`: `ValueError` with its message,
  the `TypeError` raised by an unsupported `<` comparison, and the two
  custom exception classes of the source.
* A property setter `self.x = v` that validates and then assigns is embedded
  as a function `PyVal → Except PyErr α` computing the stored value; the
  object-level mutation including the state after a raised exception is
  embedded by the `...Assign` functions which return the post-state of the
  object together with the exception, mirroring that in the source the
  `raise` statements precede the assignment statement.
* The class attribute `Employee.CURRENT_ID` is explicit state threaded
  through the constructors: each constructor takes the current counter and
  returns the possibly-updated counter, also when construction fails,
  exactly as the Python class attribute persists after an exception
  propagates out of `__init__`.
-/

inductive Role where
  | CEO
  | CFO
  | CIO
  deriving DecidableEq

inductive Department where
  | ACCOUNTING
  | FINANCE
  | HR
  | R_AND_D
  | MACHINING
  deriving DecidableEq

/-- Python runtime values that can be passed to the attribute setters. -/
inductive PyVal where
  | int : Int → PyVal
  | float : ℚ → PyVal
  | str : String → PyVal
  | role : Role → PyVal
  | dept : Department → PyVal
  deriving DecidableEq

/-- Python exceptions raised by the source: `ValueError` with its message,
`TypeError` (raised by an unsupported `<`/`>` comparison on non-numeric
operands), and the two custom exception classes. -/
inductive PyErr where
  | valueError : String → PyErr
  | typeError : PyErr
  | invalidRole : String → PyErr
  | invalidDept : String → PyErr
  deriving DecidableEq

/-- Numeric interpretation used by Python `<` and `>` against int/float
literals: defined on ints and floats, a `TypeError` otherwise. -/
def pyToNum : PyVal → Option ℚ
  | PyVal.int n => some (n : ℚ)
  | PyVal.float q => some q
  | _ => none

/-- Python `v == ''`: true exactly for the empty string (comparing a
non-string to `''` is `False`, not an error). -/
def pyIsEmptyStr : PyVal → Bool
  | PyVal.str s => s == ""
  | _ => false

/-- Python `isinstance(v, str)`. -/
def pyIsStr : PyVal → Bool
  | PyVal.str _ => true
  | _ => false

/-- Python `isinstance(v, float)`. -/
def pyIsFloat : PyVal → Bool
  | PyVal.float _ => true
  | _ => false

/-- Python `isinstance(v, int)`. -/
def pyIsInt : PyVal → Bool
  | PyVal.int _ => true
  | _ => false

/-- Whether `p` is an initial segment of `s` (on character lists). -/
def leadsWith : List Char → List Char → Bool
  | _, [] => true
  | [], _ :: _ => false
  | c :: cs, p :: ps => c == p && leadsWith cs ps

/-- Whether `p` occurs contiguously inside `s` (on character lists). -/
def containsSub (s p : List Char) : Bool :=
  match s with
  | [] => p.isEmpty
  | _ :: cs => leadsWith s p || containsSub cs p

/-- Python substring test `pat in s` for strings. -/
def strContains (s pat : String) : Bool :=
  containsSub s.data pat.data

/-- Boolean success test for an `Except` result. -/
def okB {ε α : Type} : Except ε α → Bool
  | Except.ok _ => true
  | Except.error _ => false

/-- Initial value of the class attribute `Employee.CURRENT_ID` (line 33). -/
def Employee.CURRENT_ID : Nat := 1

/-- The class attribute `Employee.IMAGE_PLACEHOLDER` (line 34). -/
def Employee.IMAGE_PLACEHOLDER : String := "./images/placeholder.png"

/-- Setter of `Employee.name` (lines 53-59). -/
def nameSetter (v : PyVal) : Except PyErr String :=
  if pyIsEmptyStr v then Except.error (PyErr.valueError "Name cannot be blank.")
  else match v with
    | PyVal.str s => Except.ok s
    | _ => Except.error (PyErr.valueError "Name needs to be a string.")

/-- Setter of `Employee.email` (lines 65-73). -/
def emailSetter (v : PyVal) : Except PyErr String :=
  if pyIsEmptyStr v then Except.error (PyErr.valueError "Email cannot be blank.")
  else match v with
    | PyVal.str s =>
      if strContains s "@acme-machining.com" then Except.ok s
      else Except.error (PyErr.valueError "Email needs to end with @acme-machining.com")
    | _ => Except.error (PyErr.valueError "Email needs to be a string.")

/-- Setter of `Employee.image` (lines 79-85). -/
def imageSetter (v : PyVal) : Except PyErr String :=
  if pyIsEmptyStr v then Except.error (PyErr.valueError "Image path cannot be blank.")
  else match v with
    | PyVal.str s => Except.ok s
    | _ => Except.error (PyErr.valueError "Image needs to be a string.")

/-- Setter of `Salaried.yearly` (lines 108-114).  The range comparison
`yearly < 0 or yearly < 50000` is evaluated first, so a non-numeric value
raises `TypeError` there; the `isinstance(yearly, float)` check only runs
afterwards. -/
def yearlySetter (v : PyVal) : Except PyErr ℚ :=
  match pyToNum v with
  | none => Except.error PyErr.typeError
  | some q =>
    if q < 0 ∨ q < 50000 then
      Except.error (PyErr.valueError "Yearly cannot be less than zero or less than 50000.")
    else if ¬ pyIsFloat v then
      Except.error (PyErr.valueError "Yearly needs to be an float.")
    else Except.ok q

/-- The float literal `99.99` of the source as an exact rational, given in
normal form (9999/100) so that comparisons against it evaluate by kernel
reduction; `lit99_99_eq` identifies it with the scientific literal. -/
def lit99_99 : ℚ := ⟨9999, 100, by decide, by decide⟩

/-- Setter of `Hourly.hourly` (lines 133-139).  The range comparison runs
first; the `isinstance(hourly, (int, float))` check afterwards (it cannot
fire on a value that survived the comparison). -/
def hourlySetter (v : PyVal) : Except PyErr ℚ :=
  match pyToNum v with
  | none => Except.error PyErr.typeError
  | some q =>
    if q < 15 ∨ q > lit99_99 then
      Except.error (PyErr.valueError "Hourly needs to be between 15 and 99.99.")
    else if ¬ (pyIsInt v ∨ pyIsFloat v) then
      Except.error (PyErr.valueError "Hourly needs to be either an integer or a float.")
    else Except.ok q

/-- Setter of `Executive.role` (lines 158-162) restricted to enum-valued
inputs, on which every CPython version agrees about `role not in Role`: a
`Role` member is stored, a member of a different enumeration raises
`InvalidRoleException`.  For non-enum inputs the behaviour of `in` on an
enum class is version-dependent and is modelled faithfully per version by
`roleSetterPy311` and `roleSetterPy312` below; this function's catch-all
branch is only ever relied upon at enum-valued inputs. -/
def roleSetter (v : PyVal) : Except PyErr Role :=
  match v with
  | PyVal.role r => Except.ok r
  | _ => Except.error (PyErr.invalidRole "Role needs to be a valid role.")

/-- Setter of `Manager.department` (lines 179-183) restricted to enum-valued
inputs, the scope on which every CPython version agrees; the full
version-dependent semantics is `departmentSetterPy311` /
`departmentSetterPy312` below. -/
def departmentSetter (v : PyVal) : Except PyErr Department :=
  match v with
  | PyVal.dept d => Except.ok d
  | _ => Except.error (PyErr.invalidDept "Department needs to be a valid department.")

/-- CPython 3.8-3.11 `value in Role` (as executed by line 160): for an Enum
instance, a member test (members of other enums give `False`); for any
non-Enum value, `Enum.__contains__` raises `TypeError`. -/
def roleContainsPy311 : PyVal → Except PyErr Bool
  | PyVal.role _ => Except.ok true
  | PyVal.dept _ => Except.ok false
  | _ => Except.error PyErr.typeError

/-- CPython 3.8-3.11 `value in Department` (line 181). -/
def deptContainsPy311 : PyVal → Except PyErr Bool
  | PyVal.dept _ => Except.ok true
  | PyVal.role _ => Except.ok false
  | _ => Except.error PyErr.typeError

/-- CPython 3.12+ `value in Role`: member test for Enum instances, and for
other values a value-equality lookup in the member value map — the `Role`
values are the ints 0, 1, 2, and a float compares equal to the int of the
same value. -/
def roleContainsPy312 : PyVal → Bool
  | PyVal.role _ => true
  | PyVal.dept _ => false
  | PyVal.int n => decide (0 ≤ n ∧ n ≤ 2)
  | PyVal.float q => decide (q = 0 ∨ q = 1 ∨ q = 2)
  | PyVal.str _ => false

/-- CPython 3.12+ `value in Department`: the `Department` values are the
ints 0 through 4. -/
def deptContainsPy312 : PyVal → Bool
  | PyVal.dept _ => true
  | PyVal.role _ => false
  | PyVal.int n => decide (0 ≤ n ∧ n ≤ 4)
  | PyVal.float q => decide (q = 0 ∨ q = 1 ∨ q = 2 ∨ q = 3 ∨ q = 4)
  | PyVal.str _ => false

/-- The `role` setter (lines 158-162) under CPython 3.8-3.11: the membership
test itself raises `TypeError` on a non-enum value; otherwise a non-member
raises `InvalidRoleException` and a member is stored.  On success the raw
value is stored (`self._role = role`). -/
def roleSetterPy311 (v : PyVal) : Except PyErr PyVal :=
  match roleContainsPy311 v with
  | Except.error e => Except.error e
  | Except.ok true => Except.ok v
  | Except.ok false => Except.error (PyErr.invalidRole "Role needs to be a valid role.")

/-- The `role` setter (lines 158-162) under CPython 3.12+: a value-matching
int or float (0, 1, 2) passes the membership test and the raw value is
stored — no exception; any other non-member raises `InvalidRoleException`. -/
def roleSetterPy312 (v : PyVal) : Except PyErr PyVal :=
  if roleContainsPy312 v then Except.ok v
  else Except.error (PyErr.invalidRole "Role needs to be a valid role.")

/-- The `department` setter (lines 179-183) under CPython 3.8-3.11. -/
def departmentSetterPy311 (v : PyVal) : Except PyErr PyVal :=
  match deptContainsPy311 v with
  | Except.error e => Except.error e
  | Except.ok true => Except.ok v
  | Except.ok false => Except.error (PyErr.invalidDept "Department needs to be a valid department.")

/-- The `department` setter (lines 179-183) under CPython 3.12+. -/
def departmentSetterPy312 (v : PyVal) : Except PyErr PyVal :=
  if deptContainsPy312 v then Except.ok v
  else Except.error (PyErr.invalidDept "Department needs to be a valid department.")

/-- The stored result of `datetime.datetime.strptime(..., '%Y-%m-%d')`: a
datetime at midnight, modelled by its calendar date. -/
structure PyDateTime where
  year : Nat
  month : Nat
  day : Nat
  deriving DecidableEq

/-- Gregorian leap-year rule, as used by `datetime`. -/
def isLeap (y : Nat) : Bool :=
  y % 4 == 0 && (y % 100 != 0 || y % 400 == 0)

/-- Days in a month, as validated by `datetime.datetime`. -/
def daysInMonth (y m : Nat) : Nat :=
  if m = 2 then (if isLeap y then 29 else 28)
  else if m = 4 ∨ m = 6 ∨ m = 9 ∨ m = 11 then 30
  else 31

/-- Sequence of decimal digits, at least one. -/
def allDigits (s : List Char) : Bool :=
  s.length ≥ 1 && s.all Char.isDigit

/-- Numeric value of a digit sequence. -/
def natOfDigits (s : List Char) : Nat :=
  s.foldl (fun n c => n * 10 + (c.toNat - 48)) 0

/-- Split a character sequence on `'-'`, as `s.split('-')` would: adjacent
separators yield empty pieces and the whole input is consumed. -/
def splitDash : List Char → List (List Char)
  | [] => [[]]
  | c :: cs =>
    let r := splitDash cs
    if c == '-' then [] :: r
    else
      match r with
      | [] => [[c]]
      | h :: t => (c :: h) :: t

/-- CPython `_strptime` with format `'%Y-%m-%d'`: `%Y` matches exactly four
digits, `%m` and `%d` match one or two digits, the whole string must be
consumed, and the resulting datetime construction validates month range,
day-of-month range (calendar-aware) and `year ≥ 1`. -/
def parseYMD (s : String) : Option PyDateTime :=
  match splitDash s.data with
  | [ys, ms, ds] =>
    if allDigits ys && ys.length == 4 &&
       allDigits ms && ms.length ≤ 2 &&
       allDigits ds && ds.length ≤ 2 then
      let y := natOfDigits ys
      let m := natOfDigits ms
      let d := natOfDigits ds
      if 1 ≤ y ∧ 1 ≤ m ∧ m ≤ 12 ∧ 1 ≤ d ∧ d ≤ daysInMonth y m then
        some ⟨y, m, d⟩
      else none
    else none
  | _ => none

/-- Python `str(v)` as applied by the date setters.  The claims only apply
them to string values; int conversion is exact, float conversion is exact on
integral values (the only ones any claim evaluates). -/
def pyStr : PyVal → String
  | PyVal.str s => s
  | PyVal.int n => toString n
  | PyVal.float q => if q.den = 1 then toString q.num ++ ".0" else toString q.num ++ "/" ++ toString q.den
  | PyVal.role Role.CEO => "Role.CEO"
  | PyVal.role Role.CFO => "Role.CFO"
  | PyVal.role Role.CIO => "Role.CIO"
  | PyVal.dept Department.ACCOUNTING => "Department.ACCOUNTING"
  | PyVal.dept Department.FINANCE => "Department.FINANCE"
  | PyVal.dept Department.HR => "Department.HR"
  | PyVal.dept Department.R_AND_D => "Department.R_AND_D"
  | PyVal.dept Department.MACHINING => "Department.MACHINING"

/-- Setter of `Permanent.hired_date` (lines 196-198): parse
`str(hired_date)` with `'%Y-%m-%d'`, raising `ValueError` when it does not
match. -/
def hiredDateSetter (v : PyVal) : Except PyErr PyDateTime :=
  match parseYMD (pyStr v) with
  | some d => Except.ok d
  | none => Except.error (PyErr.valueError "time data does not match format %Y-%m-%d")

/-- Setter of `Temporary.last_day` (lines 214-216), identical parsing. -/
def lastDaySetter (v : PyVal) : Except PyErr PyDateTime :=
  match parseYMD (pyStr v) with
  | some d => Except.ok d
  | none => Except.error (PyErr.valueError "time data does not match format %Y-%m-%d")

/-- Common state of an `Employee` after `Employee.__init__` (lines 36-41):
name, email, image (the placeholder), and the captured `id_number`. -/
structure EmployeeData where
  name : String
  email : String
  image : String
  idNumber : Nat
  deriving DecidableEq

/-- Instance state of `Salaried` (lines 98-120). -/
structure SalariedInst where
  base : EmployeeData
  yearly : ℚ
  deriving DecidableEq

/-- Instance state of `Hourly` (lines 123-145). -/
structure HourlyInst where
  base : EmployeeData
  hourly : ℚ
  deriving DecidableEq

/-- Instance state of `Executive` (lines 148-165). -/
structure ExecutiveInst where
  base : EmployeeData
  yearly : ℚ
  role : Role
  deriving DecidableEq

/-- Instance state of `Manager` (lines 168-183). -/
structure ManagerInst where
  base : EmployeeData
  yearly : ℚ
  department : Department
  deriving DecidableEq

/-- Instance state of `Permanent` (lines 186-201). -/
structure PermanentInst where
  base : EmployeeData
  hourly : ℚ
  hired_date : PyDateTime
  deriving DecidableEq

/-- Instance state of `Temporary` (lines 204-219). -/
structure TemporaryInst where
  base : EmployeeData
  hourly : ℚ
  last_day : PyDateTime
  deriving DecidableEq

/-- Mutation `obj.name = v` on an existing object: the post-state of the
object together with the exception, if any.  In the source the `raise`
statements precede `self._name = name`, so on failure the object is
returned unchanged. -/
def EmployeeData.nameAssign (e : EmployeeData) (v : PyVal) : EmployeeData × Option PyErr :=
  match nameSetter v with
  | Except.ok s => ({ e with name := s }, none)
  | Except.error er => (e, some er)

/-- Mutation `obj.email = v` on an existing object. -/
def EmployeeData.emailAssign (e : EmployeeData) (v : PyVal) : EmployeeData × Option PyErr :=
  match emailSetter v with
  | Except.ok s => ({ e with email := s }, none)
  | Except.error er => (e, some er)

/-- Mutation `obj.image = v` on an existing object. -/
def EmployeeData.imageAssign (e : EmployeeData) (v : PyVal) : EmployeeData × Option PyErr :=
  match imageSetter v with
  | Except.ok s => ({ e with image := s }, none)
  | Except.error er => (e, some er)

/-- Mutation `obj.yearly = v` on a `Salaried` object. -/
def SalariedInst.yearlyAssign (s : SalariedInst) (v : PyVal) : SalariedInst × Option PyErr :=
  match yearlySetter v with
  | Except.ok q => ({ s with yearly := q }, none)
  | Except.error er => (s, some er)

/-- Mutation `obj.hourly = v` on an `Hourly` object. -/
def HourlyInst.hourlyAssign (h : HourlyInst) (v : PyVal) : HourlyInst × Option PyErr :=
  match hourlySetter v with
  | Except.ok q => ({ h with hourly := q }, none)
  | Except.error er => (h, some er)

/-- Mutation `obj.role = v` on an `Executive` object. -/
def ExecutiveInst.roleAssign (e : ExecutiveInst) (v : PyVal) : ExecutiveInst × Option PyErr :=
  match roleSetter v with
  | Except.ok r => ({ e with role := r }, none)
  | Except.error er => (e, some er)

/-- Mutation `obj.department = v` on a `Manager` object. -/
def ManagerInst.departmentAssign (m : ManagerInst) (v : PyVal) : ManagerInst × Option PyErr :=
  match departmentSetter v with
  | Except.ok d => ({ m with department := d }, none)
  | Except.error er => (m, some er)

/-- Mutation `obj.hired_date = v` on a `Permanent` object. -/
def PermanentInst.hiredDateAssign (p : PermanentInst) (v : PyVal) : PermanentInst × Option PyErr :=
  match hiredDateSetter v with
  | Except.ok d => ({ p with hired_date := d }, none)
  | Except.error er => (p, some er)

/-- Mutation `obj.last_day = v` on a `Temporary` object. -/
def TemporaryInst.lastDayAssign (t : TemporaryInst) (v : PyVal) : TemporaryInst × Option PyErr :=
  match lastDaySetter v with
  | Except.ok d => ({ t with last_day := d }, none)
  | Except.error er => (t, some er)

/-- The body of `Employee.__init__` (lines 36-41) with the class attribute
`Employee.CURRENT_ID` as explicit state: set name, then email, then the
placeholder image, then capture the counter into `id_number` and increment
the counter.  A validation failure propagates before the counter is
touched. -/
def employeeInit (nm em : PyVal) (st : Nat) : Except PyErr EmployeeData × Nat :=
  match nameSetter nm with
  | Except.error er => (Except.error er, st)
  | Except.ok n =>
    match emailSetter em with
    | Except.error er => (Except.error er, st)
    | Except.ok e =>
      match imageSetter (PyVal.str Employee.IMAGE_PLACEHOLDER) with
      | Except.error er => (Except.error er, st)
      | Except.ok im => (Except.ok ⟨n, e, im, st⟩, st + 1)

/-- The body of `Salaried.__init__` (lines 100-102): `Employee.__init__`
runs first (and increments the counter on success), then the `yearly`
setter runs; if it raises, the counter increment persists. -/
def salariedInit (nm em yr : PyVal) (st : Nat) : Except PyErr SalariedInst × Nat :=
  match employeeInit nm em st with
  | (Except.error er, st2) => (Except.error er, st2)
  | (Except.ok b, st2) =>
    match yearlySetter yr with
    | Except.error er => (Except.error er, st2)
    | Except.ok q => (Except.ok ⟨b, q⟩, st2)

/-- The body of `Hourly.__init__` (lines 125-127). -/
def hourlyInit (nm em hr : PyVal) (st : Nat) : Except PyErr HourlyInst × Nat :=
  match employeeInit nm em st with
  | (Except.error er, st2) => (Except.error er, st2)
  | (Except.ok b, st2) =>
    match hourlySetter hr with
    | Except.error er => (Except.error er, st2)
    | Except.ok q => (Except.ok ⟨b, q⟩, st2)

/-- The body of `Executive.__init__` (lines 150-152), for enum-valued role
arguments (the scope on which all CPython versions agree; see
`roleSetterPy311`/`roleSetterPy312` for the version-dependent non-enum
path). -/
def executiveInit (nm em yr rl : PyVal) (st : Nat) : Except PyErr ExecutiveInst × Nat :=
  match salariedInit nm em yr st with
  | (Except.error er, st2) => (Except.error er, st2)
  | (Except.ok s, st2) =>
    match roleSetter rl with
    | Except.error er => (Except.error er, st2)
    | Except.ok r => (Except.ok ⟨s.base, s.yearly, r⟩, st2)

/-- The body of `Manager.__init__` (lines 171-173), for enum-valued
department arguments (see `departmentSetterPy311`/`departmentSetterPy312`
for the version-dependent non-enum path). -/
def managerInit (nm em yr dp : PyVal) (st : Nat) : Except PyErr ManagerInst × Nat :=
  match salariedInit nm em yr st with
  | (Except.error er, st2) => (Except.error er, st2)
  | (Except.ok s, st2) =>
    match departmentSetter dp with
    | Except.error er => (Except.error er, st2)
    | Except.ok d => (Except.ok ⟨s.base, s.yearly, d⟩, st2)

/-- The body of `Permanent.__init__` (lines 188-190). -/
def permanentInit (nm em hr hd : PyVal) (st : Nat) : Except PyErr PermanentInst × Nat :=
  match hourlyInit nm em hr st with
  | (Except.error er, st2) => (Except.error er, st2)
  | (Except.ok h, st2) =>
    match hiredDateSetter hd with
    | Except.error er => (Except.error er, st2)
    | Except.ok d => (Except.ok ⟨h.base, h.hourly, d⟩, st2)

/-- The body of `Temporary.__init__` (lines 206-208). -/
def temporaryInit (nm em hr ld : PyVal) (st : Nat) : Except PyErr TemporaryInst × Nat :=
  match hourlyInit nm em hr st with
  | (Except.error er, st2) => (Except.error er, st2)
  | (Except.ok h, st2) =>
    match lastDaySetter ld with
    | Except.error er => (Except.error er, st2)
    | Except.ok d => (Except.ok ⟨h.base, h.hourly, d⟩, st2)

/-- Pay rule of `Salaried.calc_pay` (lines 116-117): `self.yearly / 52.0`. -/
def salariedCalcPay (yearly : ℚ) : ℚ := yearly / 52

/-- Pay rule of `Hourly.calc_pay` (lines 141-142): `self.hourly * 40`. -/
def hourlyCalcPay (hourly : ℚ) : ℚ := hourly * 40

/-- Tagged union of all constructible employee variants. -/
inductive Inst where
  | salaried : SalariedInst → Inst
  | hourly : HourlyInst → Inst
  | executive : ExecutiveInst → Inst
  | manager : ManagerInst → Inst
  | permanent : PermanentInst → Inst
  | temporary : TemporaryInst → Inst
  deriving DecidableEq

/-- Common `Employee` state of any variant. -/
def Inst.base : Inst → EmployeeData
  | Inst.salaried s => s.base
  | Inst.hourly h => h.base
  | Inst.executive e => e.base
  | Inst.manager m => m.base
  | Inst.permanent p => p.base
  | Inst.temporary t => t.base

/-- The `id` property (lines 87-89): returns the stored `id_number`; the
property defines no setter. -/
def Inst.idNumber (i : Inst) : Nat := i.base.idNumber

/-- Dynamic dispatch of `calc_pay()`: `Executive` and `Manager` inherit
`Salaried.calc_pay` unchanged (neither class defines `calc_pay`), and
`Permanent` and `Temporary` inherit `Hourly.calc_pay` unchanged. -/
def Inst.calcPay : Inst → ℚ
  | Inst.salaried s => salariedCalcPay s.yearly
  | Inst.executive e => salariedCalcPay e.yearly
  | Inst.manager m => salariedCalcPay m.yearly
  | Inst.hourly h => hourlyCalcPay h.hourly
  | Inst.permanent p => hourlyCalcPay p.hourly
  | Inst.temporary t => hourlyCalcPay t.hourly

/-- The short display form `Employee.__str__` (lines 43-44):
`str(self.id_number) + ":" + self.name`, inherited by every variant. -/
def EmployeeData.strForm (e : EmployeeData) : String :=
  toString e.idNumber ++ ":" ++ e.name

/-- Dispatch of `str(...)` on any variant: every class inherits
`Employee.__str__`. -/
def Inst.shortForm (i : Inst) : String := i.base.strForm

/-- Python `repr` of a simple string (no escaping needed for the values the
claims evaluate). -/
def pyQuote (s : String) : String := "'" ++ s ++ "'"

/-- The value returned by `Employee.__repr__` (lines 46-47) is the tuple
`(self.name, self.email, self.image)`; subclasses apply `str(...)` to it,
which renders the tuple as Python prints it. -/
def EmployeeData.reprStr (e : EmployeeData) : String :=
  "(" ++ pyQuote e.name ++ ", " ++ pyQuote e.email ++ ", " ++ pyQuote e.image ++ ")"

/-- Python `str` of a stored numeric field; exact for integral floats (the
only numeric values any repr claim evaluates). -/
def numStr (q : ℚ) : String :=
  if q.den = 1 then toString q.num ++ ".0" else toString q.num ++ "/" ++ toString q.den

/-- Python `str` of a `Role` member. -/
def roleStr : Role → String
  | Role.CEO => "Role.CEO"
  | Role.CFO => "Role.CFO"
  | Role.CIO => "Role.CIO"

/-- Python `str` of a stored datetime: date followed by midnight time. -/
def pad2 (n : Nat) : String := if n < 10 then "0" ++ toString n else toString n

/-- Four-digit zero padding for the year, as `datetime` prints it. -/
def pad4 (n : Nat) : String :=
  if n < 10 then "000" ++ toString n
  else if n < 100 then "00" ++ toString n
  else if n < 1000 then "0" ++ toString n
  else toString n

/-- Python `str(datetime(y, m, d))` = `"YYYY-MM-DD 00:00:00"`. -/
def dateTimeStr (d : PyDateTime) : String :=
  pad4 d.year ++ "-" ++ pad2 d.month ++ "-" ++ pad2 d.day ++ " 00:00:00"

/-- Diagnostic form of `Salaried.__repr__` (lines 119-120):
`str(super().__repr__()) + ", " + str(self.yearly)`. -/
def SalariedInst.reprStr (s : SalariedInst) : String :=
  s.base.reprStr ++ ", " ++ numStr s.yearly

/-- Diagnostic form of `Hourly.__repr__` (lines 144-145). -/
def HourlyInst.reprStr (h : HourlyInst) : String :=
  h.base.reprStr ++ ", " ++ numStr h.hourly

/-- Diagnostic form of `Executive.__repr__` (lines 164-165): note the
separator is `','` with no space, as in the source. -/
def ExecutiveInst.reprStr (e : ExecutiveInst) : String :=
  EmployeeData.reprStr e.base ++ ", " ++ numStr e.yearly ++ "," ++ roleStr e.role

/-- Diagnostic form of a `Manager`: the class defines no `__repr__`
(lines 168-183), so it inherits `Salaried.__repr__`, which never reads the
department. -/
def ManagerInst.reprStr (m : ManagerInst) : String :=
  EmployeeData.reprStr m.base ++ ", " ++ numStr m.yearly

/-- Diagnostic form of `Permanent.__repr__` (lines 200-201). -/
def PermanentInst.reprStr (p : PermanentInst) : String :=
  EmployeeData.reprStr p.base ++ ", " ++ numStr p.hourly ++ ", " ++ dateTimeStr p.hired_date

/-- Diagnostic form of `Temporary.__repr__` (lines 218-219). -/
def TemporaryInst.reprStr (t : TemporaryInst) : String :=
  EmployeeData.reprStr t.base ++ ", " ++ numStr t.hourly ++ ", " ++ dateTimeStr t.last_day

/-- A single construction request: which variant to build and the raw
values handed to its `__init__`. -/
inductive ConstructReq where
  | salaried (nm em yr : PyVal)
  | hourly (nm em hr : PyVal)
  | executive (nm em yr rl : PyVal)
  | manager (nm em yr dp : PyVal)
  | permanent (nm em hr hd : PyVal)
  | temporary (nm em hr ld : PyVal)
  deriving DecidableEq

/-- Run one construction against the shared counter. -/
def runReq : ConstructReq → Nat → Except PyErr Inst × Nat
  | ConstructReq.salaried nm em yr, st =>
    match salariedInit nm em yr st with
    | (Except.ok i, st2) => (Except.ok (Inst.salaried i), st2)
    | (Except.error er, st2) => (Except.error er, st2)
  | ConstructReq.hourly nm em hr, st =>
    match hourlyInit nm em hr st with
    | (Except.ok i, st2) => (Except.ok (Inst.hourly i), st2)
    | (Except.error er, st2) => (Except.error er, st2)
  | ConstructReq.executive nm em yr rl, st =>
    match executiveInit nm em yr rl st with
    | (Except.ok i, st2) => (Except.ok (Inst.executive i), st2)
    | (Except.error er, st2) => (Except.error er, st2)
  | ConstructReq.manager nm em yr dp, st =>
    match managerInit nm em yr dp st with
    | (Except.ok i, st2) => (Except.ok (Inst.manager i), st2)
    | (Except.error er, st2) => (Except.error er, st2)
  | ConstructReq.permanent nm em hr hd, st =>
    match permanentInit nm em hr hd st with
    | (Except.ok i, st2) => (Except.ok (Inst.permanent i), st2)
    | (Except.error er, st2) => (Except.error er, st2)
  | ConstructReq.temporary nm em hr ld, st =>
    match temporaryInit nm em hr ld st with
    | (Except.ok i, st2) => (Except.ok (Inst.temporary i), st2)
    | (Except.error er, st2) => (Except.error er, st2)

/-- Run a sequence of constructions single-threaded, collecting the
successfully constructed instances; failed constructions propagate their
exception to the caller but the process keeps its counter state. -/
def runAll : List ConstructReq → Nat → List Inst × Nat
  | [], st => ([], st)
  | r :: rs, st =>
    match runReq r st with
    | (Except.ok i, st2) =>
      let p := runAll rs st2
      (i :: p.1, p.2)
    | (Except.error _, st2) => runAll rs st2

/-- Validity of a request: whether every setter its `__init__` invokes
accepts its value (state-independent). -/
def reqValid : ConstructReq → Bool
  | ConstructReq.salaried nm em yr => okB (nameSetter nm) && okB (emailSetter em) && okB (yearlySetter yr)
  | ConstructReq.hourly nm em hr => okB (nameSetter nm) && okB (emailSetter em) && okB (hourlySetter hr)
  | ConstructReq.executive nm em yr rl =>
    okB (nameSetter nm) && okB (emailSetter em) && okB (yearlySetter yr) && okB (roleSetter rl)
  | ConstructReq.manager nm em yr dp =>
    okB (nameSetter nm) && okB (emailSetter em) && okB (yearlySetter yr) && okB (departmentSetter dp)
  | ConstructReq.permanent nm em hr hd =>
    okB (nameSetter nm) && okB (emailSetter em) && okB (hourlySetter hr) && okB (hiredDateSetter hd)
  | ConstructReq.temporary nm em hr ld =>
    okB (nameSetter nm) && okB (emailSetter em) && okB (hourlySetter hr) && okB (lastDaySetter ld)

/-- Expected id sequence: `n` consecutive ids starting at `s`. -/
def idSeq (s : Nat) : Nat → List Nat
  | 0 => []
  | n + 1 => s :: idSeq (s + 1) n

/-- A sample valid employee base state, used in concrete witnesses. -/
def sampleBase : EmployeeData :=
  ⟨"Ann", "ann@acme-machining.com", "./images/placeholder.png", 1⟩

theorem lit99_99_eq : lit99_99 = (99.99 : ℚ) := by
  rw [lit99_99, Rat.mk'_eq_divInt, Rat.divInt_eq_div]
  norm_num

theorem okB_true {ε α : Type} {x : Except ε α} (h : okB x = true) :
    ∃ v, x = Except.ok v := by
  cases x with
  | ok v => exact ⟨v, rfl⟩
  | error e => simp [okB] at h

theorem okB_false {ε α : Type} {x : Except ε α} (h : okB x = false) :
    ∃ e, x = Except.error e := by
  cases x with
  | ok v => simp [okB] at h
  | error e => exact ⟨e, rfl⟩

theorem imageSetter_placeholder :
    imageSetter (PyVal.str Employee.IMAGE_PLACEHOLDER) = Except.ok Employee.IMAGE_PLACEHOLDER := by
  rfl

theorem employeeInit_ok {nm em : PyVal} {st st2 : Nat} {b : EmployeeData}
    (h : employeeInit nm em st = (Except.ok b, st2)) :
    b.idNumber = st ∧ st2 = st + 1 := by
  unfold employeeInit at h
  cases h1 : nameSetter nm <;> rw [h1] at h
  · simp at h
  · cases h2 : emailSetter em <;> rw [h2] at h
    · simp at h
    · rw [imageSetter_placeholder] at h
      simp at h
      obtain ⟨hb, hst⟩ := h
      subst hb
      exact ⟨rfl, hst.symm⟩

theorem employeeInit_st (nm em : PyVal) (st : Nat) :
    (employeeInit nm em st).2 = st ∨ (employeeInit nm em st).2 = st + 1 := by
  unfold employeeInit
  cases h1 : nameSetter nm
  · simp
  · cases h2 : emailSetter em
    · simp
    · rw [imageSetter_placeholder]
      simp

theorem salariedInit_ok {nm em yr : PyVal} {st st2 : Nat} {s : SalariedInst}
    (h : salariedInit nm em yr st = (Except.ok s, st2)) :
    s.base.idNumber = st ∧ st2 = st + 1 := by
  unfold salariedInit at h
  cases h0 : employeeInit nm em st with
  | mk res stx =>
    rw [h0] at h
    cases res with
    | error er => simp at h
    | ok b =>
      cases h1 : yearlySetter yr <;> rw [h1] at h <;> simp at h
      obtain ⟨hs, hst⟩ := h
      have hb := employeeInit_ok h0
      subst hs
      exact ⟨hb.1, by rw [← hst]; exact hb.2⟩

theorem salariedInit_st (nm em yr : PyVal) (st : Nat) :
    (salariedInit nm em yr st).2 = st ∨ (salariedInit nm em yr st).2 = st + 1 := by
  unfold salariedInit
  cases h0 : employeeInit nm em st with
  | mk res stx =>
    cases res with
    | error er =>
      simp only []
      have := employeeInit_st nm em st
      rw [h0] at this
      exact this
    | ok b =>
      have hb := employeeInit_ok h0
      cases h1 : yearlySetter yr <;> simp <;> right <;> exact hb.2

theorem hourlyInit_ok {nm em hr : PyVal} {st st2 : Nat} {s : HourlyInst}
    (h : hourlyInit nm em hr st = (Except.ok s, st2)) :
    s.base.idNumber = st ∧ st2 = st + 1 := by
  unfold hourlyInit at h
  cases h0 : employeeInit nm em st with
  | mk res stx =>
    rw [h0] at h
    cases res with
    | error er => simp at h
    | ok b =>
      cases h1 : hourlySetter hr <;> rw [h1] at h <;> simp at h
      obtain ⟨hs, hst⟩ := h
      have hb := employeeInit_ok h0
      subst hs
      exact ⟨hb.1, by rw [← hst]; exact hb.2⟩

theorem hourlyInit_st (nm em hr : PyVal) (st : Nat) :
    (hourlyInit nm em hr st).2 = st ∨ (hourlyInit nm em hr st).2 = st + 1 := by
  unfold hourlyInit
  cases h0 : employeeInit nm em st with
  | mk res stx =>
    cases res with
    | error er =>
      simp only []
      have := employeeInit_st nm em st
      rw [h0] at this
      exact this
    | ok b =>
      have hb := employeeInit_ok h0
      cases h1 : hourlySetter hr <;> simp <;> right <;> exact hb.2

theorem executiveInit_ok {nm em yr rl : PyVal} {st st2 : Nat} {e : ExecutiveInst}
    (h : executiveInit nm em yr rl st = (Except.ok e, st2)) :
    e.base.idNumber = st ∧ st2 = st + 1 := by
  unfold executiveInit at h
  cases h0 : salariedInit nm em yr st with
  | mk res stx =>
    rw [h0] at h
    cases res with
    | error er => simp at h
    | ok s =>
      cases h1 : roleSetter rl <;> rw [h1] at h <;> simp at h
      obtain ⟨hs, hst⟩ := h
      have hb := salariedInit_ok h0
      subst hs
      exact ⟨hb.1, by rw [← hst]; exact hb.2⟩

theorem executiveInit_st (nm em yr rl : PyVal) (st : Nat) :
    (executiveInit nm em yr rl st).2 = st ∨ (executiveInit nm em yr rl st).2 = st + 1 := by
  unfold executiveInit
  cases h0 : salariedInit nm em yr st with
  | mk res stx =>
    cases res with
    | error er =>
      simp only []
      have := salariedInit_st nm em yr st
      rw [h0] at this
      exact this
    | ok s =>
      have hb := salariedInit_ok h0
      cases h1 : roleSetter rl <;> simp <;> right <;> exact hb.2

theorem managerInit_ok {nm em yr dp : PyVal} {st st2 : Nat} {m : ManagerInst}
    (h : managerInit nm em yr dp st = (Except.ok m, st2)) :
    m.base.idNumber = st ∧ st2 = st + 1 := by
  unfold managerInit at h
  cases h0 : salariedInit nm em yr st with
  | mk res stx =>
    rw [h0] at h
    cases res with
    | error er => simp at h
    | ok s =>
      cases h1 : departmentSetter dp <;> rw [h1] at h <;> simp at h
      obtain ⟨hs, hst⟩ := h
      have hb := salariedInit_ok h0
      subst hs
      exact ⟨hb.1, by rw [← hst]; exact hb.2⟩

theorem managerInit_st (nm em yr dp : PyVal) (st : Nat) :
    (managerInit nm em yr dp st).2 = st ∨ (managerInit nm em yr dp st).2 = st + 1 := by
  unfold managerInit
  cases h0 : salariedInit nm em yr st with
  | mk res stx =>
    cases res with
    | error er =>
      simp only []
      have := salariedInit_st nm em yr st
      rw [h0] at this
      exact this
    | ok s =>
      have hb := salariedInit_ok h0
      cases h1 : departmentSetter dp <;> simp <;> right <;> exact hb.2

theorem permanentInit_ok {nm em hr hd : PyVal} {st st2 : Nat} {p : PermanentInst}
    (h : permanentInit nm em hr hd st = (Except.ok p, st2)) :
    p.base.idNumber = st ∧ st2 = st + 1 := by
  unfold permanentInit at h
  cases h0 : hourlyInit nm em hr st with
  | mk res stx =>
    rw [h0] at h
    cases res with
    | error er => simp at h
    | ok s =>
      cases h1 : hiredDateSetter hd <;> rw [h1] at h <;> simp at h
      obtain ⟨hs, hst⟩ := h
      have hb := hourlyInit_ok h0
      subst hs
      exact ⟨hb.1, by rw [← hst]; exact hb.2⟩

theorem permanentInit_st (nm em hr hd : PyVal) (st : Nat) :
    (permanentInit nm em hr hd st).2 = st ∨ (permanentInit nm em hr hd st).2 = st + 1 := by
  unfold permanentInit
  cases h0 : hourlyInit nm em hr st with
  | mk res stx =>
    cases res with
    | error er =>
      simp only []
      have := hourlyInit_st nm em hr st
      rw [h0] at this
      exact this
    | ok s =>
      have hb := hourlyInit_ok h0
      cases h1 : hiredDateSetter hd <;> simp <;> right <;> exact hb.2

theorem temporaryInit_ok {nm em hr ld : PyVal} {st st2 : Nat} {t : TemporaryInst}
    (h : temporaryInit nm em hr ld st = (Except.ok t, st2)) :
    t.base.idNumber = st ∧ st2 = st + 1 := by
  unfold temporaryInit at h
  cases h0 : hourlyInit nm em hr st with
  | mk res stx =>
    rw [h0] at h
    cases res with
    | error er => simp at h
    | ok s =>
      cases h1 : lastDaySetter ld <;> rw [h1] at h <;> simp at h
      obtain ⟨hs, hst⟩ := h
      have hb := hourlyInit_ok h0
      subst hs
      exact ⟨hb.1, by rw [← hst]; exact hb.2⟩

theorem temporaryInit_st (nm em hr ld : PyVal) (st : Nat) :
    (temporaryInit nm em hr ld st).2 = st ∨ (temporaryInit nm em hr ld st).2 = st + 1 := by
  unfold temporaryInit
  cases h0 : hourlyInit nm em hr st with
  | mk res stx =>
    cases res with
    | error er =>
      simp only []
      have := hourlyInit_st nm em hr st
      rw [h0] at this
      exact this
    | ok s =>
      have hb := hourlyInit_ok h0
      cases h1 : lastDaySetter ld <;> simp <;> right <;> exact hb.2

theorem runReq_ok {r : ConstructReq} {st st2 : Nat} {i : Inst}
    (h : runReq r st = (Except.ok i, st2)) :
    i.idNumber = st ∧ st2 = st + 1 := by
  cases r with
  | salaried nm em yr =>
    simp only [runReq] at h
    cases h0 : salariedInit nm em yr st with
    | mk res stx =>
      rw [h0] at h
      cases res with
      | error er => simp at h
      | ok s =>
        simp at h
        obtain ⟨hi, hst⟩ := h
        subst hi
        have := salariedInit_ok h0
        exact ⟨this.1, by rw [← hst]; exact this.2⟩
  | hourly nm em hr =>
    simp only [runReq] at h
    cases h0 : hourlyInit nm em hr st with
    | mk res stx =>
      rw [h0] at h
      cases res with
      | error er => simp at h
      | ok s =>
        simp at h
        obtain ⟨hi, hst⟩ := h
        subst hi
        have := hourlyInit_ok h0
        exact ⟨this.1, by rw [← hst]; exact this.2⟩
  | executive nm em yr rl =>
    simp only [runReq] at h
    cases h0 : executiveInit nm em yr rl st with
    | mk res stx =>
      rw [h0] at h
      cases res with
      | error er => simp at h
      | ok s =>
        simp at h
        obtain ⟨hi, hst⟩ := h
        subst hi
        have := executiveInit_ok h0
        exact ⟨this.1, by rw [← hst]; exact this.2⟩
  | manager nm em yr dp =>
    simp only [runReq] at h
    cases h0 : managerInit nm em yr dp st with
    | mk res stx =>
      rw [h0] at h
      cases res with
      | error er => simp at h
      | ok s =>
        simp at h
        obtain ⟨hi, hst⟩ := h
        subst hi
        have := managerInit_ok h0
        exact ⟨this.1, by rw [← hst]; exact this.2⟩
  | permanent nm em hr hd =>
    simp only [runReq] at h
    cases h0 : permanentInit nm em hr hd st with
    | mk res stx =>
      rw [h0] at h
      cases res with
      | error er => simp at h
      | ok s =>
        simp at h
        obtain ⟨hi, hst⟩ := h
        subst hi
        have := permanentInit_ok h0
        exact ⟨this.1, by rw [← hst]; exact this.2⟩
  | temporary nm em hr ld =>
    simp only [runReq] at h
    cases h0 : temporaryInit nm em hr ld st with
    | mk res stx =>
      rw [h0] at h
      cases res with
      | error er => simp at h
      | ok s =>
        simp at h
        obtain ⟨hi, hst⟩ := h
        subst hi
        have := temporaryInit_ok h0
        exact ⟨this.1, by rw [← hst]; exact this.2⟩

theorem runReq_st_le (r : ConstructReq) (st : Nat) : st ≤ (runReq r st).2 := by
  have key : (runReq r st).2 = st ∨ (runReq r st).2 = st + 1 := by
    cases r with
    | salaried nm em yr =>
      simp only [runReq]
      cases h0 : salariedInit nm em yr st with
      | mk res stx =>
        have := salariedInit_st nm em yr st
        rw [h0] at this
        cases res <;> simpa using this
    | hourly nm em hr =>
      simp only [runReq]
      cases h0 : hourlyInit nm em hr st with
      | mk res stx =>
        have := hourlyInit_st nm em hr st
        rw [h0] at this
        cases res <;> simpa using this
    | executive nm em yr rl =>
      simp only [runReq]
      cases h0 : executiveInit nm em yr rl st with
      | mk res stx =>
        have := executiveInit_st nm em yr rl st
        rw [h0] at this
        cases res <;> simpa using this
    | manager nm em yr dp =>
      simp only [runReq]
      cases h0 : managerInit nm em yr dp st with
      | mk res stx =>
        have := managerInit_st nm em yr dp st
        rw [h0] at this
        cases res <;> simpa using this
    | permanent nm em hr hd =>
      simp only [runReq]
      cases h0 : permanentInit nm em hr hd st with
      | mk res stx =>
        have := permanentInit_st nm em hr hd st
        rw [h0] at this
        cases res <;> simpa using this
    | temporary nm em hr ld =>
      simp only [runReq]
      cases h0 : temporaryInit nm em hr ld st with
      | mk res stx =>
        have := temporaryInit_st nm em hr ld st
        rw [h0] at this
        cases res <;> simpa using this
  rcases key with h | h <;> omega

theorem runAll_lb {rs : List ConstructReq} {st : Nat} {i : Inst}
    (h : i ∈ (runAll rs st).1) : st ≤ i.idNumber := by
  induction rs generalizing st with
  | nil => simp [runAll] at h
  | cons r rs ih =>
    unfold runAll at h
    cases h0 : runReq r st with
    | mk res stx =>
      rw [h0] at h
      cases res with
      | error er =>
        have hle := runReq_st_le r st
        rw [h0] at hle
        exact le_trans hle (ih h)
      | ok j =>
        simp at h
        have hj := runReq_ok h0
        rcases h with h | h
        · subst h; omega
        · have := ih h
          omega

theorem runAll_pairwise (rs : List ConstructReq) (st : Nat) :
    List.Pairwise (fun a b : Inst => a.idNumber < b.idNumber) (runAll rs st).1 := by
  induction rs generalizing st with
  | nil => simp [runAll]
  | cons r rs ih =>
    unfold runAll
    cases h0 : runReq r st with
    | mk res stx =>
      cases res with
      | error er => exact ih stx
      | ok j =>
        simp only [List.pairwise_cons]
        constructor
        · intro b hb
          have hj := runReq_ok h0
          have hlb := runAll_lb hb
          omega
        · exact ih stx

theorem reqValid_ok {r : ConstructReq} (st : Nat) (h : reqValid r = true) :
    ∃ i, runReq r st = (Except.ok i, st + 1) := by
  cases r with
  | salaried nm em yr =>
    simp only [reqValid, Bool.and_eq_true] at h
    obtain ⟨⟨hn, he⟩, hy⟩ := h
    obtain ⟨n, hn⟩ := okB_true hn
    obtain ⟨e, he⟩ := okB_true he
    obtain ⟨q, hy⟩ := okB_true hy
    exact ⟨Inst.salaried ⟨⟨n, e, Employee.IMAGE_PLACEHOLDER, st⟩, q⟩,
      by simp [runReq, salariedInit, employeeInit, hn, he, hy, imageSetter_placeholder]⟩
  | hourly nm em hr =>
    simp only [reqValid, Bool.and_eq_true] at h
    obtain ⟨⟨hn, he⟩, hh⟩ := h
    obtain ⟨n, hn⟩ := okB_true hn
    obtain ⟨e, he⟩ := okB_true he
    obtain ⟨q, hh⟩ := okB_true hh
    exact ⟨Inst.hourly ⟨⟨n, e, Employee.IMAGE_PLACEHOLDER, st⟩, q⟩,
      by simp [runReq, hourlyInit, employeeInit, hn, he, hh, imageSetter_placeholder]⟩
  | executive nm em yr rl =>
    simp only [reqValid, Bool.and_eq_true] at h
    obtain ⟨⟨⟨hn, he⟩, hy⟩, hr⟩ := h
    obtain ⟨n, hn⟩ := okB_true hn
    obtain ⟨e, he⟩ := okB_true he
    obtain ⟨q, hy⟩ := okB_true hy
    obtain ⟨r, hr⟩ := okB_true hr
    exact ⟨Inst.executive ⟨⟨n, e, Employee.IMAGE_PLACEHOLDER, st⟩, q, r⟩,
      by simp [runReq, executiveInit, salariedInit, employeeInit, hn, he, hy, hr,
        imageSetter_placeholder]⟩
  | manager nm em yr dp =>
    simp only [reqValid, Bool.and_eq_true] at h
    obtain ⟨⟨⟨hn, he⟩, hy⟩, hd⟩ := h
    obtain ⟨n, hn⟩ := okB_true hn
    obtain ⟨e, he⟩ := okB_true he
    obtain ⟨q, hy⟩ := okB_true hy
    obtain ⟨d, hd⟩ := okB_true hd
    exact ⟨Inst.manager ⟨⟨n, e, Employee.IMAGE_PLACEHOLDER, st⟩, q, d⟩,
      by simp [runReq, managerInit, salariedInit, employeeInit, hn, he, hy, hd,
        imageSetter_placeholder]⟩
  | permanent nm em hr hd =>
    simp only [reqValid, Bool.and_eq_true] at h
    obtain ⟨⟨⟨hn, he⟩, hh⟩, hdd⟩ := h
    obtain ⟨n, hn⟩ := okB_true hn
    obtain ⟨e, he⟩ := okB_true he
    obtain ⟨q, hh⟩ := okB_true hh
    obtain ⟨d, hdd⟩ := okB_true hdd
    exact ⟨Inst.permanent ⟨⟨n, e, Employee.IMAGE_PLACEHOLDER, st⟩, q, d⟩,
      by simp [runReq, permanentInit, hourlyInit, employeeInit, hn, he, hh, hdd,
        imageSetter_placeholder]⟩
  | temporary nm em hr ld =>
    simp only [reqValid, Bool.and_eq_true] at h
    obtain ⟨⟨⟨hn, he⟩, hh⟩, hl⟩ := h
    obtain ⟨n, hn⟩ := okB_true hn
    obtain ⟨e, he⟩ := okB_true he
    obtain ⟨q, hh⟩ := okB_true hh
    obtain ⟨d, hl⟩ := okB_true hl
    exact ⟨Inst.temporary ⟨⟨n, e, Employee.IMAGE_PLACEHOLDER, st⟩, q, d⟩,
      by simp [runReq, temporaryInit, hourlyInit, employeeInit, hn, he, hh, hl,
        imageSetter_placeholder]⟩

theorem runAll_valid_ids {rs : List ConstructReq} {st : Nat}
    (h : ∀ r ∈ rs, reqValid r = true) :
    (runAll rs st).1.map Inst.idNumber = idSeq st rs.length := by
  induction rs generalizing st with
  | nil => simp [runAll, idSeq]
  | cons r rs ih =>
    obtain ⟨i, hi⟩ := reqValid_ok st (h r (by simp))
    have hid := runReq_ok hi
    simp only [runAll]
    rw [hi]
    simp only [List.map_cons, List.length_cons, idSeq]
    rw [hid.1, ih (fun r2 hr2 => h r2 (List.mem_cons_of_mem _ hr2))]

theorem employeeInit_err {nm em : PyVal} {st : Nat}
    (h : okB (employeeInit nm em st).1 = false) :
    (employeeInit nm em st).2 = st := by
  unfold employeeInit at h ⊢
  cases h1 : nameSetter nm
  · rfl
  · cases h2 : emailSetter em
    · rfl
    · simp only [h1, h2, imageSetter_placeholder] at h
      simp [okB] at h

/-- C1: every Salaried-rooted variant (Salaried, Executive, Manager) computes
`calc_pay()` as `yearly / 52.0` and every Hourly-rooted variant (Hourly,
Permanent, Temporary) computes it as `hourly * 40`; the leaf variants
dispatch to the parent pay rules `salariedCalcPay`/`hourlyCalcPay` unchanged
(no override), `calc_pay` is a pure function of the stored fields (so
repeated calls without mutation agree), and concretely a Salaried instance
with yearly = 104000.0 pays 2000 and an Hourly instance with hourly = 20
pays 800. -/
theorem C1_calc_pay_rules :
    (∀ s : SalariedInst, (Inst.salaried s).calcPay = s.yearly / 52) ∧
    (∀ e : ExecutiveInst, (Inst.executive e).calcPay = e.yearly / 52) ∧
    (∀ m : ManagerInst, (Inst.manager m).calcPay = m.yearly / 52) ∧
    (∀ h : HourlyInst, (Inst.hourly h).calcPay = h.hourly * 40) ∧
    (∀ p : PermanentInst, (Inst.permanent p).calcPay = p.hourly * 40) ∧
    (∀ t : TemporaryInst, (Inst.temporary t).calcPay = t.hourly * 40) ∧
    (∀ e : ExecutiveInst, (Inst.executive e).calcPay = salariedCalcPay e.yearly) ∧
    (∀ m : ManagerInst, (Inst.manager m).calcPay = salariedCalcPay m.yearly) ∧
    (∀ p : PermanentInst, (Inst.permanent p).calcPay = hourlyCalcPay p.hourly) ∧
    (∀ t : TemporaryInst, (Inst.temporary t).calcPay = hourlyCalcPay t.hourly) ∧
    salariedCalcPay (104000.0 : ℚ) = 2000 ∧
    hourlyCalcPay 20 = 800 :=
  ⟨fun _ => rfl, fun _ => rfl, fun _ => rfl, fun _ => rfl, fun _ => rfl, fun _ => rfl,
   fun _ => rfl, fun _ => rfl, fun _ => rfl, fun _ => rfl,
   by norm_num [salariedCalcPay], by norm_num [hourlyCalcPay]⟩

/-- C2: over any single-threaded sequence of constructions (any mix of the
six variants, in any order), the ids of the successfully constructed
instances are strictly increasing, hence pairwise distinct; the process-wide
counter `Employee.CURRENT_ID` starts at 1 and is shared by all variants (one
`runAll` state thread); when every construction succeeds the assigned ids
are exactly 1, 2, ..., N; and no attribute setter ever changes a stored
`id_number` (the `id` property has no setter and the field setters do not
touch it). -/
theorem C2_ids_strictly_increasing (rs : List ConstructReq) :
    List.Pairwise (fun a b : Inst => a.idNumber < b.idNumber)
      (runAll rs Employee.CURRENT_ID).1 ∧
    Employee.CURRENT_ID = 1 ∧
    ((∀ r ∈ rs, reqValid r = true) →
      (runAll rs Employee.CURRENT_ID).1.map Inst.idNumber = idSeq 1 rs.length) ∧
    (∀ (e : EmployeeData) (v : PyVal), ((e.nameAssign v).1).idNumber = e.idNumber) ∧
    (∀ (e : EmployeeData) (v : PyVal), ((e.emailAssign v).1).idNumber = e.idNumber) ∧
    (∀ (e : EmployeeData) (v : PyVal), ((e.imageAssign v).1).idNumber = e.idNumber) ∧
    (∀ (s : SalariedInst) (v : PyVal), ((s.yearlyAssign v).1).base.idNumber = s.base.idNumber) ∧
    (∀ (h : HourlyInst) (v : PyVal), ((h.hourlyAssign v).1).base.idNumber = h.base.idNumber) ∧
    (∀ (e : ExecutiveInst) (v : PyVal), ((e.roleAssign v).1).base.idNumber = e.base.idNumber) ∧
    (∀ (m : ManagerInst) (v : PyVal), ((m.departmentAssign v).1).base.idNumber = m.base.idNumber) ∧
    (∀ (p : PermanentInst) (v : PyVal), ((p.hiredDateAssign v).1).base.idNumber = p.base.idNumber) ∧
    (∀ (t : TemporaryInst) (v : PyVal), ((t.lastDayAssign v).1).base.idNumber = t.base.idNumber) := by
  refine ⟨runAll_pairwise rs Employee.CURRENT_ID, rfl,
    fun hv => runAll_valid_ids hv, ?_, ?_, ?_, ?_, ?_, ?_, ?_, ?_, ?_⟩
  · intro e v
    cases h : nameSetter v <;> simp [EmployeeData.nameAssign, h]
  · intro e v
    cases h : emailSetter v <;> simp [EmployeeData.emailAssign, h]
  · intro e v
    cases h : imageSetter v <;> simp [EmployeeData.imageAssign, h]
  · intro s v
    cases h : yearlySetter v <;> simp [SalariedInst.yearlyAssign, h]
  · intro s v
    cases h : hourlySetter v <;> simp [HourlyInst.hourlyAssign, h]
  · intro s v
    cases h : roleSetter v <;> simp [ExecutiveInst.roleAssign, h]
  · intro s v
    cases h : departmentSetter v <;> simp [ManagerInst.departmentAssign, h]
  · intro s v
    cases h : hiredDateSetter v <;> simp [PermanentInst.hiredDateAssign, h]
  · intro s v
    cases h : lastDaySetter v <;> simp [TemporaryInst.lastDayAssign, h]

/-- Witness for C2: a concrete all-successful two-construction run (one
Hourly, one Salaried) assigns exactly the ids 1 and 2. -/
theorem C2_ids_witness :
    (runAll
      [ConstructReq.hourly (PyVal.str "Ann") (PyVal.str "ann@acme-machining.com") (PyVal.int 20),
       ConstructReq.salaried (PyVal.str "Bob") (PyVal.str "bob@acme-machining.com")
         (PyVal.float 104000)]
      Employee.CURRENT_ID).1.map Inst.idNumber = idSeq 1 2 :=
  (C2_ids_strictly_increasing _).2.2.1 (by decide)

/-- C3 counterexample: a Salaried construction whose `yearly` validation
fails (yearly = 1000.0, a valid name and email) raises, yet the process-wide
identity counter has already been incremented from 1 to 2 by the completed
`Employee.__init__` — partial state IS left behind, contradicting the claim
that every failed construction leaves all state unchanged. -/
theorem C3_counterexample :
    okB (salariedInit (PyVal.str "Bob") (PyVal.str "bob@acme-machining.com")
      (PyVal.float 1000) Employee.CURRENT_ID).1 = false ∧
    (salariedInit (PyVal.str "Bob") (PyVal.str "bob@acme-machining.com")
      (PyVal.float 1000) Employee.CURRENT_ID).2 = Employee.CURRENT_ID + 1 := by
  decide

/-- C3 (amended): every failed attribute assignment — a setter call on an
existing instance or a field validation during construction — leaves the
instance's fields unchanged, because each setter's `raise` statements
precede its assignment; and a failure inside `Employee.__init__` itself
(name or email) leaves the identity counter unchanged.  However, a
construction that fails on a variant-specific field after the base
initializer has completed (as in `C3_counterexample`) leaves the
process-wide counter incremented: the counter ends at `st + 1`, not `st`. -/
theorem C3_failed_assignment :
    (∀ (e : EmployeeData) (v : PyVal) (er : PyErr),
      (e.nameAssign v).2 = some er → (e.nameAssign v).1 = e) ∧
    (∀ (e : EmployeeData) (v : PyVal) (er : PyErr),
      (e.emailAssign v).2 = some er → (e.emailAssign v).1 = e) ∧
    (∀ (e : EmployeeData) (v : PyVal) (er : PyErr),
      (e.imageAssign v).2 = some er → (e.imageAssign v).1 = e) ∧
    (∀ (s : SalariedInst) (v : PyVal) (er : PyErr),
      (s.yearlyAssign v).2 = some er → (s.yearlyAssign v).1 = s) ∧
    (∀ (h : HourlyInst) (v : PyVal) (er : PyErr),
      (h.hourlyAssign v).2 = some er → (h.hourlyAssign v).1 = h) ∧
    (∀ (e : ExecutiveInst) (v : PyVal) (er : PyErr),
      (e.roleAssign v).2 = some er → (e.roleAssign v).1 = e) ∧
    (∀ (m : ManagerInst) (v : PyVal) (er : PyErr),
      (m.departmentAssign v).2 = some er → (m.departmentAssign v).1 = m) ∧
    (∀ (p : PermanentInst) (v : PyVal) (er : PyErr),
      (p.hiredDateAssign v).2 = some er → (p.hiredDateAssign v).1 = p) ∧
    (∀ (t : TemporaryInst) (v : PyVal) (er : PyErr),
      (t.lastDayAssign v).2 = some er → (t.lastDayAssign v).1 = t) ∧
    (∀ (nm em : PyVal) (st : Nat),
      okB (employeeInit nm em st).1 = false → (employeeInit nm em st).2 = st) ∧
    (∀ (nm em yr : PyVal) (st : Nat),
      okB (nameSetter nm) = true → okB (emailSetter em) = true →
      okB (yearlySetter yr) = false →
      okB (salariedInit nm em yr st).1 = false ∧
      (salariedInit nm em yr st).2 = st + 1) := by
  refine ⟨?_, ?_, ?_, ?_, ?_, ?_, ?_, ?_, ?_, ?_, ?_⟩
  · intro e v er h
    cases hs : nameSetter v <;> simp [EmployeeData.nameAssign, hs] at h ⊢
  · intro e v er h
    cases hs : emailSetter v <;> simp [EmployeeData.emailAssign, hs] at h ⊢
  · intro e v er h
    cases hs : imageSetter v <;> simp [EmployeeData.imageAssign, hs] at h ⊢
  · intro s v er h
    cases hs : yearlySetter v <;> simp [SalariedInst.yearlyAssign, hs] at h ⊢
  · intro s v er h
    cases hs : hourlySetter v <;> simp [HourlyInst.hourlyAssign, hs] at h ⊢
  · intro s v er h
    cases hs : roleSetter v <;> simp [ExecutiveInst.roleAssign, hs] at h ⊢
  · intro s v er h
    cases hs : departmentSetter v <;> simp [ManagerInst.departmentAssign, hs] at h ⊢
  · intro s v er h
    cases hs : hiredDateSetter v <;> simp [PermanentInst.hiredDateAssign, hs] at h ⊢
  · intro s v er h
    cases hs : lastDaySetter v <;> simp [TemporaryInst.lastDayAssign, hs] at h ⊢
  · intro nm em st h
    exact employeeInit_err h
  · intro nm em yr st hn he hy
    obtain ⟨n, hn⟩ := okB_true hn
    obtain ⟨e, he⟩ := okB_true he
    obtain ⟨er, hy⟩ := okB_false hy
    constructor <;>
      simp [salariedInit, employeeInit, hn, he, hy, imageSetter_placeholder, okB]

/-- Witness for C3 (amended): a failed blank-name assignment on a concrete
instance leaves it unchanged, and a concrete Salaried construction failing
on `yearly` ends with the counter incremented from 1 to 2. -/
theorem C3_failed_assignment_witness :
    (sampleBase.nameAssign (PyVal.str "")).1 = sampleBase ∧
    (salariedInit (PyVal.str "Bob") (PyVal.str "bob@acme-machining.com")
      (PyVal.float 1000) 1).2 = 1 + 1 :=
  ⟨C3_failed_assignment.1 sampleBase (PyVal.str "")
      (PyErr.valueError "Name cannot be blank.") (by decide),
   (C3_failed_assignment.2.2.2.2.2.2.2.2.2.2 (PyVal.str "Bob")
      (PyVal.str "bob@acme-machining.com") (PyVal.float 1000) 1
      (by decide) (by decide) (by decide)).2⟩

/-- C4 counterexample: setting `yearly` to the non-numeric string `"abc"`
fails with a `TypeError` raised by the comparison `yearly < 0` — not with
the `ValueError` field-validation error the claim asserts; `TypeError` is a
different exception from the setter's validation errors. -/
theorem C4_counterexample :
    yearlySetter (PyVal.str "abc") = Except.error PyErr.typeError ∧
    PyErr.typeError ≠ PyErr.valueError "Yearly cannot be less than zero or less than 50000." ∧
    PyErr.typeError ≠ PyErr.valueError "Yearly needs to be an float." :=
  ⟨rfl, by decide, by decide⟩


theorem yearlySetter_float (q : ℚ) :
    yearlySetter (PyVal.float q) =
      if q < 0 ∨ q < 50000 then
        Except.error (PyErr.valueError "Yearly cannot be less than zero or less than 50000.")
      else Except.ok q := by
  simp [yearlySetter, pyToNum, pyIsFloat]

theorem hourlySetter_float (q : ℚ) :
    hourlySetter (PyVal.float q) =
      if q < 15 ∨ q > lit99_99 then
        Except.error (PyErr.valueError "Hourly needs to be between 15 and 99.99.")
      else Except.ok q := by
  simp [hourlySetter, pyToNum, pyIsInt, pyIsFloat]

theorem hourlySetter_int (n : ℤ) :
    hourlySetter (PyVal.int n) =
      if (n : ℚ) < 15 ∨ (n : ℚ) > lit99_99 then
        Except.error (PyErr.valueError "Hourly needs to be between 15 and 99.99.")
      else Except.ok (n : ℚ) := by
  simp [hourlySetter, pyToNum, pyIsInt, pyIsFloat]

/-- C4 (amended): the `yearly` setter succeeds exactly when the value is a
float ≥ 50000 (49999.99 fails, 50000.0 succeeds and stores the value); a
numeric value of the wrong type (an int, even one ≥ 50000) fails with the
field-validation `ValueError`, but a non-numeric value such as a string
fails with a `TypeError` from the range comparison `yearly < 0`, not with
the field-validation error. -/
theorem C4_yearly_setter :
    (∀ v : PyVal, okB (yearlySetter v) = true ↔
      ∃ q : ℚ, v = PyVal.float q ∧ 50000 ≤ q) ∧
    (∀ q : ℚ, 50000 ≤ q → yearlySetter (PyVal.float q) = Except.ok q) ∧
    (∀ n : ℤ, ∃ msg : String, yearlySetter (PyVal.int n) = Except.error (PyErr.valueError msg)) ∧
    (∀ s : String, yearlySetter (PyVal.str s) = Except.error PyErr.typeError) ∧
    okB (yearlySetter (PyVal.float 49999.99)) = false ∧
    yearlySetter (PyVal.float 50000.0) = Except.ok 50000 := by
  have hok : ∀ q : ℚ, 50000 ≤ q → yearlySetter (PyVal.float q) = Except.ok q := by
    intro q hq
    rw [yearlySetter_float]
    rw [if_neg]
    push_neg
    constructor <;> linarith
  have herr : ∀ q : ℚ, q < 50000 →
      yearlySetter (PyVal.float q) =
        Except.error (PyErr.valueError "Yearly cannot be less than zero or less than 50000.") := by
    intro q hq
    rw [yearlySetter_float, if_pos (Or.inr hq)]
  refine ⟨?_, hok, ?_, fun s => rfl, ?_, ?_⟩
  · intro v
    cases v with
    | int n =>
      constructor
      · intro h
        rcases okB_true h with ⟨q, hq⟩
        simp only [yearlySetter, pyToNum, pyIsFloat] at hq
        by_cases hc : (n : ℚ) < 0 ∨ (n : ℚ) < 50000
        · rw [if_pos hc] at hq
          cases hq
        · rw [if_neg hc] at hq
          simp at hq
      · rintro ⟨q, hq, _⟩
        cases hq
    | float q =>
      constructor
      · intro h
        by_cases hq : 50000 ≤ q
        · exact ⟨q, rfl, hq⟩
        · push_neg at hq
          rw [herr q hq] at h
          cases h
      · rintro ⟨q2, hq2, hge⟩
        injection hq2 with hqq
        subst hqq
        rw [hok _ hge]
        rfl
    | str s => simp [yearlySetter, pyToNum, okB]
    | role r => simp [yearlySetter, pyToNum, okB]
    | dept d => simp [yearlySetter, pyToNum, okB]
  · intro n
    by_cases hc : (n : ℚ) < 0 ∨ (n : ℚ) < 50000
    · refine ⟨"Yearly cannot be less than zero or less than 50000.", ?_⟩
      simp only [yearlySetter, pyToNum]
      rw [if_pos hc]
    · refine ⟨"Yearly needs to be an float.", ?_⟩
      simp only [yearlySetter, pyToNum]
      rw [if_neg hc]
      simp [pyIsFloat]
  · rw [herr 49999.99 (by norm_num)]
    rfl
  · rw [show yearlySetter (PyVal.float 50000.0) = Except.ok (50000.0 : ℚ) from hok 50000.0 (by norm_num)]
    norm_num

/-- Witness for C4 (amended): the setter accepts the concrete float 104000,
discharging the hypothesis 50000 ≤ 104000. -/
theorem C4_yearly_setter_witness :
    yearlySetter (PyVal.float 104000) = Except.ok 104000 :=
  C4_yearly_setter.2.1 104000 (by norm_num)

theorem okB_if_eq {ε α : Type} (c : Prop) [Decidable c] (e : ε) (a : α) :
    okB (if c then Except.error e else Except.ok a) = true ↔ ¬ c := by
  split_ifs with h <;> simp [okB, h]

/-- C5: the `hourly` setter succeeds exactly when the value is numeric (an
int or a float) with 15 ≤ v ≤ 99.99, both boundaries inclusive: 14.99 and
100.00 fail, 15 and 99.99 succeed. -/
theorem C5_hourly_setter :
    (∀ v : PyVal, okB (hourlySetter v) = true ↔
      ∃ q : ℚ, pyToNum v = some q ∧ 15 ≤ q ∧ q ≤ (99.99 : ℚ)) ∧
    okB (hourlySetter (PyVal.float 14.99)) = false ∧
    okB (hourlySetter (PyVal.float 100.00)) = false ∧
    hourlySetter (PyVal.int 15) = Except.ok 15 ∧
    hourlySetter (PyVal.float 99.99) = Except.ok (99.99 : ℚ) := by
  refine ⟨?_, ?_, ?_, ?_, ?_⟩
  · intro v
    cases v with
    | int n =>
      rw [hourlySetter_int, okB_if_eq]
      constructor
      · intro h
        push_neg at h
        rw [lit99_99_eq] at h
        exact ⟨(n : ℚ), rfl, h.1, h.2⟩
      · rintro ⟨q, hq, h1, h2⟩
        injection hq with hqq
        subst hqq
        push_neg
        rw [lit99_99_eq]
        exact ⟨h1, h2⟩
    | float q =>
      rw [hourlySetter_float, okB_if_eq]
      constructor
      · intro h
        push_neg at h
        rw [lit99_99_eq] at h
        exact ⟨q, rfl, h.1, h.2⟩
      · rintro ⟨q2, hq, h1, h2⟩
        injection hq with hqq
        subst hqq
        push_neg
        rw [lit99_99_eq]
        exact ⟨h1, h2⟩
    | str s =>
      simp [hourlySetter, pyToNum, okB]
    | role r =>
      simp [hourlySetter, pyToNum, okB]
    | dept d =>
      simp [hourlySetter, pyToNum, okB]
  · rw [hourlySetter_float, if_pos (Or.inl (by norm_num))]
    rfl
  · rw [hourlySetter_float, if_pos (Or.inr (by rw [lit99_99_eq]; norm_num))]
    rfl
  · rw [hourlySetter_int, if_neg]
    · norm_num
    · push_neg
      rw [lit99_99_eq]
      constructor <;> norm_num
  · rw [hourlySetter_float, if_neg]
    push_neg
    rw [lit99_99_eq]
    constructor <;> norm_num

/-- C6: the email setter succeeds exactly when the value is a non-empty
string containing the fixed domain suffix `@acme-machining.com`; in
particular `"bob@example.com"` fails and `"bob@acme-machining.com"`
succeeds and is stored. -/
theorem C6_email_setter :
    (∀ v : PyVal, okB (emailSetter v) = true ↔
      ∃ s : String, v = PyVal.str s ∧ s ≠ "" ∧ strContains s "@acme-machining.com" = true) ∧
    okB (emailSetter (PyVal.str "bob@example.com")) = false ∧
    emailSetter (PyVal.str "bob@acme-machining.com") = Except.ok "bob@acme-machining.com" := by
  refine ⟨?_, by decide, by rfl⟩
  intro v
  cases v with
  | str s =>
    simp only [emailSetter, pyIsEmptyStr]
    by_cases he : s = ""
    · subst he
      simp [okB]
    · rw [if_neg (by simpa using he)]
      cases hc : strContains s "@acme-machining.com" <;> simp [hc, okB, he]
  | int n => simp [emailSetter, pyIsEmptyStr, okB]
  | float q => simp [emailSetter, pyIsEmptyStr, okB]
  | role r => simp [emailSetter, pyIsEmptyStr, okB]
  | dept d => simp [emailSetter, pyIsEmptyStr, okB]

/-- C7 counterexample: the claim that every non-member role or department
value fails with the enum-specific exception is false on every supported
CPython: with `role=0` (an int), CPython 3.8-3.11 raises `TypeError` inside
the membership test `role not in Role` — not `InvalidRoleException` — and
CPython 3.12+ finds the value 0 among the `Role` member values, so the
setter silently succeeds and stores the raw int, raising nothing at all;
likewise for `department=0`. -/
theorem C7_counterexample :
    roleSetterPy311 (PyVal.int 0) = Except.error PyErr.typeError ∧
    roleSetterPy312 (PyVal.int 0) = Except.ok (PyVal.int 0) ∧
    departmentSetterPy311 (PyVal.int 0) = Except.error PyErr.typeError ∧
    departmentSetterPy312 (PyVal.int 0) = Except.ok (PyVal.int 0) ∧
    PyErr.typeError ≠ PyErr.invalidRole "Role needs to be a valid role." ∧
    PyErr.typeError ≠ PyErr.invalidDept "Department needs to be a valid department." :=
  ⟨rfl, rfl, rfl, rfl, by decide, by decide⟩

/-- C7 (amended): with a valid enumeration member the role and department
setters succeed and store that member on every CPython version; with an
enum value that is not a member (a member of the other enumeration) they
fail with `InvalidRoleException` / `InvalidDepartmentException` on every
version; but for non-enum values the behaviour is version-dependent and
never the uniformly claimed one: on CPython 3.8-3.11 the membership test
raises `TypeError` for every non-enum value, while on CPython 3.12+ an int
or float equal to a member value (0-2 for Role, 0-4 for Department) is
silently accepted and stored raw, and only the remaining non-enum values
fail with the enum-specific exception.  Constructing an Executive with a
non-member enum role fails with the role-specific error, a Manager with a
non-member enum department fails with the department-specific error, and
with valid members each construction succeeds and stores the member. -/
theorem C7_enum_setters :
    (∀ r : Role, roleSetter (PyVal.role r) = Except.ok r ∧
      roleSetterPy311 (PyVal.role r) = Except.ok (PyVal.role r) ∧
      roleSetterPy312 (PyVal.role r) = Except.ok (PyVal.role r)) ∧
    (∀ d : Department, departmentSetter (PyVal.dept d) = Except.ok d ∧
      departmentSetterPy311 (PyVal.dept d) = Except.ok (PyVal.dept d) ∧
      departmentSetterPy312 (PyVal.dept d) = Except.ok (PyVal.dept d)) ∧
    (∀ d : Department,
      roleSetterPy311 (PyVal.dept d) =
        Except.error (PyErr.invalidRole "Role needs to be a valid role.") ∧
      roleSetterPy312 (PyVal.dept d) =
        Except.error (PyErr.invalidRole "Role needs to be a valid role.")) ∧
    (∀ r : Role,
      departmentSetterPy311 (PyVal.role r) =
        Except.error (PyErr.invalidDept "Department needs to be a valid department.") ∧
      departmentSetterPy312 (PyVal.role r) =
        Except.error (PyErr.invalidDept "Department needs to be a valid department.")) ∧
    (∀ n : ℤ, roleSetterPy311 (PyVal.int n) = Except.error PyErr.typeError ∧
      departmentSetterPy311 (PyVal.int n) = Except.error PyErr.typeError) ∧
    (∀ q : ℚ, roleSetterPy311 (PyVal.float q) = Except.error PyErr.typeError ∧
      departmentSetterPy311 (PyVal.float q) = Except.error PyErr.typeError) ∧
    (∀ s : String, roleSetterPy311 (PyVal.str s) = Except.error PyErr.typeError ∧
      departmentSetterPy311 (PyVal.str s) = Except.error PyErr.typeError) ∧
    (∀ n : ℤ, 0 ≤ n → n ≤ 2 → roleSetterPy312 (PyVal.int n) = Except.ok (PyVal.int n)) ∧
    (∀ n : ℤ, ¬ (0 ≤ n ∧ n ≤ 2) → roleSetterPy312 (PyVal.int n) =
      Except.error (PyErr.invalidRole "Role needs to be a valid role.")) ∧
    (∀ n : ℤ, 0 ≤ n → n ≤ 4 → departmentSetterPy312 (PyVal.int n) = Except.ok (PyVal.int n)) ∧
    (∀ n : ℤ, ¬ (0 ≤ n ∧ n ≤ 4) → departmentSetterPy312 (PyVal.int n) =
      Except.error (PyErr.invalidDept "Department needs to be a valid department.")) ∧
    (∀ s : String,
      roleSetterPy312 (PyVal.str s) =
        Except.error (PyErr.invalidRole "Role needs to be a valid role.") ∧
      departmentSetterPy312 (PyVal.str s) =
        Except.error (PyErr.invalidDept "Department needs to be a valid department.")) ∧
    (executiveInit (PyVal.str "Eve") (PyVal.str "eve@acme-machining.com") (PyVal.float 104000)
      (PyVal.dept Department.HR) 1).1 =
      Except.error (PyErr.invalidRole "Role needs to be a valid role.") ∧
    (managerInit (PyVal.str "Mia") (PyVal.str "mia@acme-machining.com") (PyVal.float 104000)
      (PyVal.role Role.CEO) 1).1 =
      Except.error (PyErr.invalidDept "Department needs to be a valid department.") ∧
    (∃ ei : ExecutiveInst,
      (executiveInit (PyVal.str "Eve") (PyVal.str "eve@acme-machining.com") (PyVal.float 104000)
        (PyVal.role Role.CEO) 1).1 = Except.ok ei ∧ ei.role = Role.CEO) ∧
    (∃ mi : ManagerInst,
      (managerInit (PyVal.str "Mia") (PyVal.str "mia@acme-machining.com") (PyVal.float 104000)
        (PyVal.dept Department.HR) 1).1 = Except.ok mi ∧ mi.department = Department.HR) := by
  refine ⟨fun r => ⟨rfl, rfl, rfl⟩, fun d => ⟨rfl, rfl, rfl⟩, fun d => ⟨rfl, rfl⟩,
    fun r => ⟨rfl, rfl⟩, fun n => ⟨rfl, rfl⟩, fun q => ⟨rfl, rfl⟩, fun s => ⟨rfl, rfl⟩,
    ?_, ?_, ?_, ?_, fun s => ⟨rfl, rfl⟩, by rfl, by rfl, ?_, ?_⟩
  · intro n h0 h2
    simp only [roleSetterPy312, roleContainsPy312]
    rw [if_pos (by simpa using ⟨h0, h2⟩)]
  · intro n hn
    simp only [roleSetterPy312, roleContainsPy312]
    rw [if_neg (by simpa using hn)]
  · intro n h0 h4
    simp only [departmentSetterPy312, deptContainsPy312]
    rw [if_pos (by simpa using ⟨h0, h4⟩)]
  · intro n hn
    simp only [departmentSetterPy312, deptContainsPy312]
    rw [if_neg (by simpa using hn)]
  · exact ⟨⟨⟨"Eve", "eve@acme-machining.com", "./images/placeholder.png", 1⟩, 104000, Role.CEO⟩,
      rfl, rfl⟩
  · exact ⟨⟨⟨"Mia", "mia@acme-machining.com", "./images/placeholder.png", 1⟩, 104000,
      Department.HR⟩, rfl, rfl⟩

/-- Witness for C7 (amended): concrete 3.12 probes discharging the range
hypotheses — the value-matching int 1 is silently accepted as a role and 3
as a department, while 5 and 9 fall outside the member values and raise the
enum-specific exceptions. -/
theorem C7_enum_setters_witness :
    roleSetterPy312 (PyVal.int 1) = Except.ok (PyVal.int 1) ∧
    roleSetterPy312 (PyVal.int 5) =
      Except.error (PyErr.invalidRole "Role needs to be a valid role.") ∧
    departmentSetterPy312 (PyVal.int 3) = Except.ok (PyVal.int 3) ∧
    departmentSetterPy312 (PyVal.int 9) =
      Except.error (PyErr.invalidDept "Department needs to be a valid department.") :=
  ⟨C7_enum_setters.2.2.2.2.2.2.2.1 1 (by norm_num) (by norm_num),
   C7_enum_setters.2.2.2.2.2.2.2.2.1 5 (by norm_num),
   C7_enum_setters.2.2.2.2.2.2.2.2.2.1 3 (by norm_num) (by norm_num),
   C7_enum_setters.2.2.2.2.2.2.2.2.2.2.1 9 (by norm_num)⟩

/-- C8: the `hired_date` setter of Permanent and the `last_day` setter of
Temporary succeed exactly when `str(value)` parses in the `'%Y-%m-%d'`
format, and store the parsed calendar-date value; constructing a Permanent
with hired_date = "2020-01-15" succeeds and stores the date
January 15, 2020, while "15-01-2020" fails. -/
theorem C8_date_setters :
    (∀ (v : PyVal) (d : PyDateTime),
      hiredDateSetter v = Except.ok d ↔ parseYMD (pyStr v) = some d) ∧
    (∀ (v : PyVal) (d : PyDateTime),
      lastDaySetter v = Except.ok d ↔ parseYMD (pyStr v) = some d) ∧
    (∃ p : PermanentInst,
      (permanentInit (PyVal.str "Pam") (PyVal.str "pam@acme-machining.com") (PyVal.int 20)
        (PyVal.str "2020-01-15") 1).1 = Except.ok p ∧ p.hired_date = ⟨2020, 1, 15⟩) ∧
    okB (permanentInit (PyVal.str "Pam") (PyVal.str "pam@acme-machining.com") (PyVal.int 20)
      (PyVal.str "15-01-2020") 1).1 = false ∧
    hiredDateSetter (PyVal.str "2020-01-15") = Except.ok ⟨2020, 1, 15⟩ ∧
    okB (lastDaySetter (PyVal.str "15-01-2020")) = false := by
  refine ⟨?_, ?_, ?_, by decide, by rfl, by decide⟩
  · intro v d
    unfold hiredDateSetter
    cases hp : parseYMD (pyStr v) <;> simp
  · intro v d
    unfold lastDaySetter
    cases hp : parseYMD (pyStr v) <;> simp
  · exact ⟨⟨⟨"Pam", "pam@acme-machining.com", "./images/placeholder.png", 1⟩,
      ((20 : ℤ) : ℚ), ⟨2020, 1, 15⟩⟩, rfl, rfl⟩

/-- C9 counterexample: two Managers identical except for their department
have the same diagnostic form — `Manager` defines no `__repr__` of its own
and inherits `Salaried.__repr__`, which never reads the department, so the
Manager diagnostic form does NOT include its department, contrary to the
claim that every variant's diagnostic form appends its own fields. -/
theorem C9_counterexample :
    ManagerInst.reprStr ⟨sampleBase, 104000, Department.ACCOUNTING⟩ =
      ManagerInst.reprStr ⟨sampleBase, 104000, Department.FINANCE⟩ :=
  rfl

/-- C9 (amended): the short display form of every variant is
`"<id>:<name>"`; the diagnostic form concatenates parent fields followed by
the variant's own fields for Salaried, Hourly, Executive, Permanent and
Temporary — but Manager, which defines no `__repr__`, inherits Salaried's
diagnostic form, so a Manager's diagnostic form consists of the Salaried
fields only and is independent of its department. -/
theorem C9_string_forms :
    (∀ i : Inst, i.shortForm = toString i.idNumber ++ ":" ++ i.base.name) ∧
    (∀ s : SalariedInst, s.reprStr = s.base.reprStr ++ ", " ++ numStr s.yearly) ∧
    (∀ h : HourlyInst, h.reprStr = h.base.reprStr ++ ", " ++ numStr h.hourly) ∧
    (∀ e : ExecutiveInst,
      e.reprStr = e.base.reprStr ++ ", " ++ numStr e.yearly ++ "," ++ roleStr e.role) ∧
    (∀ p : PermanentInst,
      p.reprStr = p.base.reprStr ++ ", " ++ numStr p.hourly ++ ", " ++ dateTimeStr p.hired_date) ∧
    (∀ t : TemporaryInst,
      t.reprStr = t.base.reprStr ++ ", " ++ numStr t.hourly ++ ", " ++ dateTimeStr t.last_day) ∧
    (∀ m : ManagerInst, m.reprStr = m.base.reprStr ++ ", " ++ numStr m.yearly) ∧
    (∀ (m : ManagerInst) (d : Department),
      ManagerInst.reprStr { m with department := d } = m.reprStr) := by
  refine ⟨?_, fun _ => rfl, fun _ => rfl, fun _ => rfl, fun _ => rfl, fun _ => rfl,
    fun _ => rfl, fun _ _ => rfl⟩
  intro i
  cases i <;> rfl

/-- C10 (implicit): the non-empty checks of the `name` and `image` setters
reject only the exact empty string `''` (besides non-strings): each setter
succeeds exactly on non-empty strings, so a whitespace-only string such as
`" "` is accepted and stored verbatim. -/
theorem C10_blank_strings :
    (∀ v : PyVal, okB (nameSetter v) = true ↔ ∃ s : String, v = PyVal.str s ∧ s ≠ "") ∧
    (∀ v : PyVal, okB (imageSetter v) = true ↔ ∃ s : String, v = PyVal.str s ∧ s ≠ "") ∧
    nameSetter (PyVal.str " ") = Except.ok " " ∧
    imageSetter (PyVal.str " ") = Except.ok " " ∧
    (∀ e : EmployeeData,
      (e.nameAssign (PyVal.str " ")).1.name = " " ∧ (e.nameAssign (PyVal.str " ")).2 = none) ∧
    (∀ e : EmployeeData,
      (e.imageAssign (PyVal.str " ")).1.image = " " ∧ (e.imageAssign (PyVal.str " ")).2 = none) := by
  refine ⟨?_, ?_, by rfl, by rfl, ?_, ?_⟩
  · intro v
    cases v with
    | str s =>
      simp only [nameSetter, pyIsEmptyStr]
      by_cases he : s = ""
      · subst he
        simp [okB]
      · rw [if_neg (by simpa using he)]
        simp [okB, he]
    | int n => simp [nameSetter, pyIsEmptyStr, okB]
    | float q => simp [nameSetter, pyIsEmptyStr, okB]
    | role r => simp [nameSetter, pyIsEmptyStr, okB]
    | dept d => simp [nameSetter, pyIsEmptyStr, okB]
  · intro v
    cases v with
    | str s =>
      simp only [imageSetter, pyIsEmptyStr]
      by_cases he : s = ""
      · subst he
        simp [okB]
      · rw [if_neg (by simpa using he)]
        simp [okB, he]
    | int n => simp [imageSetter, pyIsEmptyStr, okB]
    | float q => simp [imageSetter, pyIsEmptyStr, okB]
    | role r => simp [imageSetter, pyIsEmptyStr, okB]
    | dept d => simp [imageSetter, pyIsEmptyStr, okB]
  · intro e
    exact ⟨rfl, rfl⟩
  · intro e
    exact ⟨rfl, rfl⟩
